import Mathlib

/-!
Verification of the payment-verification server (`server.js` and
`controller/paymentController.js`).

The live HTTP application is `server.js`: it defines every endpoint inline and
never mounts `routes/paymentRoutes.js`, so the handlers embedded below as
`serverVerifyPayment`, `serverCreateOrderOptions` and `serverGetPayments`
follow `server.js` line by line.  The parallel controller module duplicates
the verify/capture flow with small divergences (it trims the HMAC secret and
returns 400 for unexpected payment states); its signature computation is
embedded as `controllerExpectedSign` where a claim depends on the divergence.

The signature check is real: `hmacSha256` below is HMAC-SHA256 (RFC 2104 over
FIPS 180-4 SHA-256) on byte lists, with 32-bit words as `Nat` reduced
`% 2^32`, exactly what `crypto.createHmac('sha256', key).update(msg)
.digest('hex')` computes on ASCII inputs.
-/

set_option maxRecDepth 100000

namespace Razorpay

/-! ## SHA-256 (FIPS 180-4), bytes as `Nat` in `[0, 256)`, words as `Nat` in `[0, 2^32)` -/

/-- 2^32, the word modulus. -/
def w32 : Nat := 4294967296

/-- Truncate to 32 bits. -/
def mask (x : Nat) : Nat := x % w32

/-- Bitwise complement within 32 bits. -/
def bnot32 (x : Nat) : Nat := x ^^^ 4294967295

/-- Rotate a 32-bit word right by `n`. -/
def rotr (n x : Nat) : Nat := mask ((x >>> n) ||| (x <<< (32 - n)))

/-- FIPS 180-4 Ch function. -/
def ch (x y z : Nat) : Nat := (x &&& y) ^^^ (bnot32 x &&& z)

/-- FIPS 180-4 Maj function. -/
def maj (x y z : Nat) : Nat := (x &&& y) ^^^ (x &&& z) ^^^ (y &&& z)

/-- FIPS 180-4 Σ₀. -/
def bigSigma0 (x : Nat) : Nat := rotr 2 x ^^^ rotr 13 x ^^^ rotr 22 x

/-- FIPS 180-4 Σ₁. -/
def bigSigma1 (x : Nat) : Nat := rotr 6 x ^^^ rotr 11 x ^^^ rotr 25 x

/-- FIPS 180-4 σ₀. -/
def smallSigma0 (x : Nat) : Nat := rotr 7 x ^^^ rotr 18 x ^^^ (x >>> 3)

/-- FIPS 180-4 σ₁. -/
def smallSigma1 (x : Nat) : Nat := rotr 17 x ^^^ rotr 19 x ^^^ (x >>> 10)

/-- The 64 SHA-256 round constants (FIPS 180-4 §4.2.2), in decimal. -/
def sha256K : List Nat := [
  1116352408, 1899447441, 3049323471, 3921009573, 961987163, 1508970993,
  2453635748, 2870763221, 3624381080, 310598401, 607225278, 1426881987,
  1925078388, 2162078206, 2614888103, 3248222580, 3835390401, 4022224774,
  264347078, 604807628, 770255983, 1249150122, 1555081692, 1996064986,
  2554220882, 2821834349, 2952996808, 3210313671, 3336571891, 3584528711,
  113926993, 338241895, 666307205, 773529912, 1294757372, 1396182291,
  1695183700, 1986661051, 2177026350, 2456956037, 2730485921, 2820302411,
  3259730800, 3345764771, 3516065817, 3600352804, 4094571909, 275423344,
  430227734, 506948616, 659060556, 883997877, 958139571, 1322822218,
  1537002063, 1747873779, 1955562222, 2024104815, 2227730452, 2361852424,
  2428436474, 2756734187, 3204031479, 3329325298]

/-- The SHA-256 initial hash state (FIPS 180-4 §5.3.3), in decimal. -/
def sha256H0 : List Nat :=
  [1779033703, 3144134277, 1013904242, 2773480762,
   1359893119, 2600822924, 528734635, 1541459225]

/-- FIPS 180-4 message padding: append `0x80`, zeros to 56 mod 64, then the
bit length as 8 big-endian bytes. -/
def padMessage (msg : List Nat) : List Nat :=
  let len := msg.length
  let zeros := (119 - len % 64) % 64
  msg ++ [128] ++ List.replicate zeros 0 ++
    (List.range 8).map (fun i => ((len * 8) >>> (8 * (7 - i))) % 256)

/-- Split a byte list into 64-byte blocks (fuel-driven so it reduces in the
kernel; the fuel is always sufficient for a padded message). -/
def toBlocksAux : Nat → List Nat → List (List Nat)
  | 0, _ => []
  | _ + 1, [] => []
  | n + 1, l => l.take 64 :: toBlocksAux n (l.drop 64)

/-- Split a byte list into 64-byte blocks. -/
def toBlocks (l : List Nat) : List (List Nat) := toBlocksAux (l.length / 64 + 1) l

/-- Four big-endian bytes into one 32-bit word. -/
def bytesToWord (a b c d : Nat) : Nat := ((a * 256 + b) * 256 + c) * 256 + d

/-- The 16 initial message-schedule words of a 64-byte block. -/
def blockWords (block : List Nat) : List Nat :=
  (List.range 16).map fun i =>
    bytesToWord (block.getD (4 * i) 0) (block.getD (4 * i + 1) 0)
      (block.getD (4 * i + 2) 0) (block.getD (4 * i + 3) 0)

/-- Extend the message schedule by `n` further words. -/
def extendWords : Nat → List Nat → List Nat
  | 0, ws => ws
  | n + 1, ws =>
    let t := ws.length
    extendWords n (ws ++ [mask (smallSigma1 (ws.getD (t - 2) 0) + ws.getD (t - 7) 0 +
      smallSigma0 (ws.getD (t - 15) 0) + ws.getD (t - 16) 0)])

/-- One SHA-256 round on the 8-word working state; `kw` is `K_t + W_t mod 2^32`. -/
def sha256Round (st : List Nat) (kw : Nat) : List Nat :=
  match st with
  | [a, b, c, d, e, f, g, h] =>
    let t1 := mask (h + bigSigma1 e + ch e f g + kw)
    let t2 := mask (bigSigma0 a + maj a b c)
    [mask (t1 + t2), a, b, c, mask (d + t1), e, f, g]
  | st => st

/-- The SHA-256 compression function on one 64-byte block. -/
def sha256Compress (h : List Nat) (block : List Nat) : List Nat :=
  let ws := extendWords 48 (blockWords block)
  let kws := List.zipWith (fun k w => mask (k + w)) sha256K ws
  let st := kws.foldl sha256Round h
  List.zipWith (fun a b => mask (a + b)) h st

/-- SHA-256 of a byte list, as the 32 digest bytes. -/
def sha256 (msg : List Nat) : List Nat :=
  let hh := (toBlocks (padMessage msg)).foldl sha256Compress sha256H0
  hh.flatMap fun w => [(w >>> 24) % 256, (w >>> 16) % 256, (w >>> 8) % 256, w % 256]

/-! ## HMAC-SHA256 (RFC 2104) and hex rendering -/

/-- HMAC-SHA256 over byte lists: hash an over-long key, zero-pad to the 64-byte
block size, and compute `H((K ⊕ opad) ‖ H((K ⊕ ipad) ‖ msg))`. -/
def hmacSha256 (key msg : List Nat) : List Nat :=
  let k0 := if 64 < key.length then sha256 key else key
  let kp := k0 ++ List.replicate (64 - k0.length) 0
  sha256 ((kp.map fun b => b ^^^ 92) ++ sha256 ((kp.map fun b => b ^^^ 54) ++ msg))

/-- Lowercase hex digit for a value below 16. -/
def hexDigit (d : Nat) : Char := "0123456789abcdef".data.getD d 'x'

/-- Render bytes as lowercase hexadecimal, two digits per byte. -/
def bytesToHex (bs : List Nat) : String :=
  String.mk (bs.flatMap fun b => [hexDigit (b / 16), hexDigit (b % 16)])

/-- The code points of a string as bytes (all strings in play are ASCII, where
UTF-8 bytes and code points coincide, as in Node's default `utf8` encoding). -/
def strBytes (s : String) : List Nat := s.data.map Char.toNat

/-- `crypto.createHmac('sha256', key).update(msg).digest('hex')` on ASCII
strings: the HMAC-SHA256 digest rendered as lowercase hex. -/
def hmacHex (key msg : String) : String := bytesToHex (hmacSha256 (strBytes key) (strBytes msg))

/-! ## JSON request values and JavaScript coercions -/

/-- A JSON field value as the handlers see it: a string, a number, or absent
(`undefined` after destructuring).  Numbers are modelled as integers — every
amount in play is one. -/
inductive JVal where
  | jstr : String → JVal
  | jnum : Int → JVal
  | jundefined : JVal
deriving DecidableEq

/-- JavaScript truthiness, as tested by `!x`: `undefined`, `""` and `0` are
falsy, everything else in the model is truthy. -/
def truthy : JVal → Bool
  | .jstr s => !(s == "")
  | .jnum n => !(n == 0)
  | .jundefined => false

/-- JavaScript string coercion, as performed by `+` on a string operand. -/
def asStr : JVal → String
  | .jstr s => s
  | .jnum n => toString n
  | .jundefined => "undefined"

/-- JavaScript whitespace, the character class `String.prototype.trim` strips. -/
def isJsWhitespace (c : Char) : Bool :=
  c == ' ' || c == '\t' || c == '\n' || c == '\r' || c == '\x0b' || c == '\x0c' ||
    c == '\u00A0' || c == '\uFEFF' || c == '\u2028' || c == '\u2029'

/-- `String.prototype.trim()`: drop leading and trailing whitespace. -/
def jsTrim (s : String) : String :=
  String.mk (((s.data.dropWhile isJsWhitespace).reverse.dropWhile isJsWhitespace).reverse)

/-- JavaScript `||` on strings: the left operand unless it is empty (falsy). -/
def orDefault (s d : String) : String := if s == "" then d else s

/-! ## The signature verifier

`server.js` (lines 87-91) computes
`crypto.createHmac('sha256', process.env.RAZORPAY_KEY_SECRET)
  .update(razorpay_order_id + '|' + razorpay_payment_id).digest('hex')`
— note the secret is used as-is.  The duplicate implementation in
`controller/paymentController.js` (lines 63-67) computes the same digest but
over `process.env.RAZORPAY_KEY_SECRET.trim()`. -/

/-- Expected signature as `server.js` computes it (secret untrimmed). -/
def serverExpectedSign (secret orderId paymentId : String) : String :=
  hmacHex secret (orderId ++ "|" ++ paymentId)

/-- Expected signature as `paymentController.js` computes it (secret trimmed). -/
def controllerExpectedSign (secret orderId paymentId : String) : String :=
  hmacHex (jsTrim secret) (orderId ++ "|" ++ paymentId)

/-- The signature verifier of `server.js`: accept exactly when the submitted
signature is string-equal to the expected hex digest
(`razorpay_signature === expectedSign`). -/
def verifySignature (secret orderId paymentId signature : String) : Bool :=
  signature == serverExpectedSign secret orderId paymentId

/-! ## The verify-payment handler of `server.js` -/

/-- The four-field body of a POST /verify-payment request. -/
structure VerifyRequest where
  razorpay_order_id : JVal
  razorpay_payment_id : JVal
  razorpay_signature : JVal
  amount : JVal

/-- A payment object as returned by the gateway (`razorpay.payments.fetch`
or `.capture`); only these fields are inspected or echoed by the handlers. -/
structure Payment where
  id : String
  status : String
  currency : String
  amount : Int
deriving DecidableEq

/-- The gateway's behaviour for one request: what `payments.fetch` and
`payments.capture` would return (or the message of the error they throw). -/
structure Gateway where
  fetchResult : Except String Payment
  captureResult : Except String Payment

/-- The JSON body and status code the verify-payment handler responds with;
fields absent from a branch's object literal are `none`. -/
structure VerifyResponse where
  status : Nat
  verified : Option Bool := none
  captured : Option Bool := none
  error : Option String := none
  payment_id : Option String := none
  order_id : Option String := none
  payment_details : Option Payment := none
deriving DecidableEq

/-- One execution of the verify-payment handler: the response plus the
gateway side effects it performed. -/
structure VerifyOutcome where
  response : VerifyResponse
  fetchCalls : Nat
  captureCalls : Nat
  captureAmounts : List JVal
deriving DecidableEq

/-- The signature gate of the handler: `razorpay_signature === expectedSign`.
JavaScript `===` is strict, so a non-string field never equals the digest. -/
def sigAccepted (secret : String) (req : VerifyRequest) : Bool :=
  match req.razorpay_signature with
  | .jstr s =>
      verifySignature secret (asStr req.razorpay_order_id) (asStr req.razorpay_payment_id) s
  | _ => false

/-- The response of the handler's catch block (`server.js` lines 140-146):
500 with `verified:true, captured:false` and the thrown error's message, with
a fallback when that message is empty (`captureError.message || ...`). -/
def captureFailedResponse (msg : String) : VerifyResponse :=
  { status := 500, verified := some true, captured := some false,
    error := some (orDefault msg "Payment verified but capture failed") }

/-- The success response shape of `server.js` lines 112-118 and 121-127. -/
def capturedResponse (paymentId orderId : String) (details : Payment) : VerifyResponse :=
  { status := 200, verified := some true, captured := some true,
    payment_id := some paymentId, order_id := some orderId,
    payment_details := some details }

/-- The POST /verify-payment handler of `server.js` (lines 62-154), one
branch per source branch: falsy-field validation, signature gate, fetch,
then capture / already-captured / unexpected-state (the last throws into the
catch, which answers 500 with the error's message). -/
def serverVerifyPayment (secret : String) (req : VerifyRequest) (gw : Gateway) : VerifyOutcome :=
  if !(truthy req.razorpay_order_id) || !(truthy req.razorpay_payment_id) ||
      !(truthy req.razorpay_signature) || !(truthy req.amount) then
    { response := { status := 400, verified := some false, error := some "Missing required parameters" },
      fetchCalls := 0, captureCalls := 0, captureAmounts := [] }
  else
    let orderId := asStr req.razorpay_order_id
    let paymentId := asStr req.razorpay_payment_id
    if sigAccepted secret req then
      match gw.fetchResult with
      | .error e =>
        { response := captureFailedResponse e,
          fetchCalls := 1, captureCalls := 0, captureAmounts := [] }
      | .ok paymentDetails =>
        if paymentDetails.status == "authorized" then
          match gw.captureResult with
          | .ok payment =>
            { response := capturedResponse paymentId orderId payment,
              fetchCalls := 1, captureCalls := 1, captureAmounts := [req.amount] }
          | .error e =>
            { response := captureFailedResponse e,
              fetchCalls := 1, captureCalls := 1, captureAmounts := [req.amount] }
        else if paymentDetails.status == "captured" then
          { response := capturedResponse paymentId orderId paymentDetails,
            fetchCalls := 1, captureCalls := 0, captureAmounts := [] }
        else
          { response := captureFailedResponse ("Payment in unexpected state: " ++ paymentDetails.status),
            fetchCalls := 1, captureCalls := 0, captureAmounts := [] }
    else
      { response := { status := 400, verified := some false, error := some "Invalid signature" },
        fetchCalls := 0, captureCalls := 0, captureAmounts := [] }

/-! ## The create-order handler of `server.js` -/

/-- The options object POST /create-order passes to `razorpay.orders.create`:
`{ amount: amount * 100, currency }` with currency defaulting to INR
(`server.js` lines 43-50; the receipt field is time-based and not modelled). -/
structure OrderOptions where
  amount : Int
  currency : String
deriving DecidableEq

/-- POST /create-order's construction of the gateway options: the
caller-supplied amount is multiplied by 100 (rupees to paise). -/
def serverCreateOrderOptions (amount : Int) (currency : Option String) : OrderOptions :=
  { amount := amount * 100, currency := currency.getD "INR" }

/-! ## The GET /payments handler of `server.js` -/

/-- The fixed duration, in milliseconds, of the timer raced against the
listing call (`setTimeout(..., 10000)` in `server.js`). -/
def paymentsTimeoutMs : Nat := 10000

/-- An error caught by the GET /payments handler: the gateway error's
`statusCode` (absent on plain `Error` objects such as the timer's) and
`message`. -/
structure ListError where
  statusCode : Option Nat
  message : String
deriving DecidableEq

/-- The error the timeout promise rejects with when the timer wins the race:
`new Error('Request timed out')`, which carries no `statusCode`. -/
def timedOutError : ListError := { statusCode := none, message := "Request timed out" }

/-- The listing object `razorpay.payments.all` resolves with; `items` may be
absent, in which case the handler substitutes `[]`. -/
structure PaymentsList where
  count : Nat
  items : Option (List Payment)
deriving DecidableEq

/-- The JSON body and status code GET /payments responds with. -/
structure ListResponse where
  status : Nat
  success : Bool
  error : Option String := none
  count : Option Nat := none
  items : Option (List Payment) := none
deriving DecidableEq

/-- The catch block of GET /payments (`server.js` lines 195-228): 401 for a
credential failure, 504 when the message is the timer's, otherwise 500 with
the error's message (or a fallback when the message is empty). -/
def classifyListError (e : ListError) : ListResponse :=
  if e.statusCode == some 401 then
    { status := 401, success := false, error := some "Invalid Razorpay credentials" }
  else if e.message == "Request timed out" then
    { status := 504, success := false, error := some "Request to Razorpay timed out" }
  else
    { status := 500, success := false, error := some (orDefault e.message "Failed to fetch payments") }

/-- The GET /payments handler of `server.js` (lines 156-228), parametrised by
the outcome of `Promise.race([fetchPromise, timeoutPromise])`: an error (the
gateway's, or `timedOutError` when the timer wins), a falsy resolution
(re-thrown as 'No response from Razorpay'), or the listing. -/
def serverGetPayments (raceResult : Except ListError (Option PaymentsList)) : ListResponse :=
  match raceResult with
  | .error e => classifyListError e
  | .ok none => classifyListError { statusCode := none, message := "No response from Razorpay" }
  | .ok (some payments) =>
    { status := 200, success := true, count := some payments.count,
      items := some (payments.items.getD []) }

/-! ## Concrete fixtures: the spec's scenario `orderId=order_ABC`,
`paymentId=pay_XYZ`, `secret=testsecret`, with stubbed gateways -/

/-- `hex(HMAC-SHA256("testsecret", "order_ABC|pay_XYZ"))`, the expected
signature of the spec's concrete scenario. -/
def testDigest : String :=
  "93f5a785992a41d68e10e2e08c1c7ca5692e58e24bdedbc5f0616c97fc4438aa"

/-- The concrete, correctly signed verification request of the scenario. -/
def testReq : VerifyRequest :=
  { razorpay_order_id := .jstr "order_ABC", razorpay_payment_id := .jstr "pay_XYZ",
    razorpay_signature := .jstr testDigest, amount := .jnum 500 }

/-- The same request with a wrong signature. -/
def badSigReq : VerifyRequest :=
  { razorpay_order_id := .jstr "order_ABC", razorpay_payment_id := .jstr "pay_XYZ",
    razorpay_signature := .jstr "deadbeef", amount := .jnum 500 }

/-- A stub gateway whose payment is authorized and whose capture succeeds. -/
def gwAuthorized : Gateway :=
  { fetchResult := .ok { id := "pay_XYZ", status := "authorized", currency := "INR", amount := 500 },
    captureResult := .ok { id := "pay_XYZ", status := "captured", currency := "INR", amount := 500 } }

/-- A stub gateway whose payment is already captured. -/
def gwCaptured : Gateway :=
  { fetchResult := .ok { id := "pay_XYZ", status := "captured", currency := "INR", amount := 500 },
    captureResult := .error "capture must not be called" }

/-- A stub gateway whose payment is still in the created state. -/
def gwCreated : Gateway :=
  { fetchResult := .ok { id := "pay_XYZ", status := "created", currency := "INR", amount := 500 },
    captureResult := .error "capture must not be called" }

/-- A stub gateway whose fetch call fails. -/
def gwFetchFails : Gateway :=
  { fetchResult := .error "Gateway unreachable",
    captureResult := .error "capture must not be called" }

/-- A stub gateway whose capture call fails after an authorized fetch. -/
def gwCaptureFails : Gateway :=
  { fetchResult := .ok { id := "pay_XYZ", status := "authorized", currency := "INR", amount := 500 },
    captureResult := .error "Capture failed" }

end Razorpay

namespace Razorpay

/-! ## Helper lemmas -/

/-- JavaScript `||` keeps a non-empty left operand. -/
theorem orDefault_of_ne (s d : String) (h : s ≠ "") : orDefault s d = s := by
  simp [orDefault, h]

/-- Appending to the unexpected-state prefix never yields the empty string. -/
theorem unexpected_state_msg_ne_empty (s : String) :
    ("Payment in unexpected state: " ++ s) ≠ "" := by
  intro h
  have hd := congrArg String.data h
  simp [String.data_append] at hd

/-- SHA-256 of the empty input (FIPS test vector). -/
theorem sha256_empty :
    bytesToHex (sha256 []) =
      "e3b0c44298fc1c149afbf4c8996fb92427ae41e4649b934ca495991b7852b855" := by decide

/-- SHA-256 of "abc" (FIPS test vector). -/
theorem sha256_abc :
    bytesToHex (sha256 (strBytes "abc")) =
      "ba7816bf8f01cfea414140de5dae2223b00361a396177a9cb410ff61f20015ad" := by decide

/-- RFC 4231 test case 2 for HMAC-SHA256. -/
theorem hmac_rfc4231_case2 :
    hmacHex "Jefe" "what do ya want for nothing?" =
      "5bdcc146bf60754e6a042426089575c75a003f089d2739839dec58b964ec3843" := by decide

/-! ## The claims -/

/-- Claim C1: for every orderId, paymentId and secret key, the signature
verifier computes `expected = HMAC-SHA256(key, orderId + "|" + paymentId)`
rendered as lowercase hex and accepts a submitted signature iff it is exactly
string-equal to that digest; for orderId=order_ABC, paymentId=pay_XYZ,
secret=testsecret, exactly `hex(HMAC-SHA256("testsecret",
"order_ABC|pay_XYZ"))` (= `testDigest`) verifies true and every other string
verifies false. -/
theorem claim1_signature_verifier :
    (∀ key orderId paymentId signature : String,
        verifySignature key orderId paymentId signature = true ↔
          signature = hmacHex key (orderId ++ "|" ++ paymentId)) ∧
    hmacHex "testsecret" ("order_ABC" ++ "|" ++ "pay_XYZ") = testDigest ∧
    verifySignature "testsecret" "order_ABC" "pay_XYZ" testDigest = true ∧
    (∀ signature : String, signature ≠ testDigest →
        verifySignature "testsecret" "order_ABC" "pay_XYZ" signature = false) := by
  have hD : hmacHex "testsecret" "order_ABC|pay_XYZ" = testDigest := by decide
  refine ⟨fun key orderId paymentId signature => ?_, by simp [hD], ?_, fun signature hs => ?_⟩
  · simp [verifySignature, serverExpectedSign]
  · simp [verifySignature, serverExpectedSign, hD]
  · simp [verifySignature, serverExpectedSign, hD, hs]

/-- Witness for C1 at concrete inputs. -/
theorem claim1_witness :
    (verifySignature "k" "o" "p" "sig" = true ↔ "sig" = hmacHex "k" ("o" ++ "|" ++ "p")) ∧
    verifySignature "testsecret" "order_ABC" "pay_XYZ" "deadbeef" = false :=
  ⟨claim1_signature_verifier.1 "k" "o" "p" "sig",
   claim1_signature_verifier.2.2.2 "deadbeef" (by decide)⟩

/-- Claim C2: on any execution of the verify-payment handler in which the
submitted signature does not pass the signature gate, zero capture calls are
issued, whatever the gateway would have answered. -/
theorem claim2_no_capture_unverified :
    ∀ (secret : String) (req : VerifyRequest) (gw : Gateway),
      sigAccepted secret req = false →
        (serverVerifyPayment secret req gw).captureCalls = 0 ∧
        (serverVerifyPayment secret req gw).captureAmounts = [] := by
  intro secret req gw h
  unfold serverVerifyPayment
  split
  · exact ⟨rfl, rfl⟩
  · simp [h]

/-- Witness for C2: the concrete request with signature "deadbeef". -/
theorem claim2_witness :
    sigAccepted "testsecret" badSigReq = false ∧
    (serverVerifyPayment "testsecret" badSigReq gwAuthorized).captureCalls = 0 := by
  have h : sigAccepted "testsecret" badSigReq = false := by decide
  exact ⟨h, (claim2_no_capture_unverified "testsecret" badSigReq gwAuthorized h).1⟩

/-- Claim C3: a correctly signed request whose fetched payment is already
`captured` issues zero capture calls and gets a 200 success response with
`verified:true, captured:true` carrying the existing payment details. -/
theorem claim3_already_captured :
    ∀ (secret : String) (req : VerifyRequest) (gw : Gateway) (p : Payment),
      truthy req.razorpay_order_id = true → truthy req.razorpay_payment_id = true →
      truthy req.razorpay_signature = true → truthy req.amount = true →
      sigAccepted secret req = true →
      gw.fetchResult = .ok p → p.status = "captured" →
        (serverVerifyPayment secret req gw).captureCalls = 0 ∧
        (serverVerifyPayment secret req gw).response.status = 200 ∧
        (serverVerifyPayment secret req gw).response.verified = some true ∧
        (serverVerifyPayment secret req gw).response.captured = some true ∧
        (serverVerifyPayment secret req gw).response.payment_details = some p := by
  intro secret req gw p h1 h2 h3 h4 hsig hfetch hstatus
  simp [serverVerifyPayment, capturedResponse, h1, h2, h3, h4, hsig, hfetch, hstatus]

/-- Witness for C3: the concrete signed request against the already-captured
stub gateway. -/
theorem claim3_witness :
    sigAccepted "testsecret" testReq = true ∧
    (serverVerifyPayment "testsecret" testReq gwCaptured).captureCalls = 0 ∧
    (serverVerifyPayment "testsecret" testReq gwCaptured).response.captured = some true := by
  have hsig : sigAccepted "testsecret" testReq = true := by decide
  have h := claim3_already_captured "testsecret" testReq gwCaptured
    { id := "pay_XYZ", status := "captured", currency := "INR", amount := 500 }
    (by decide) (by decide) (by decide) (by decide) hsig rfl rfl
  exact ⟨hsig, h.1, h.2.2.2.1⟩

/-- Counterexample to claim C4 as stated: for the concrete signed request and
a gateway whose payment is in state `created`, `server.js` answers 500 — not
an HTTP 400-class status — because the unexpected-state branch throws into
the catch block. -/
theorem claim4_counterexample :
    (serverVerifyPayment "testsecret" testReq gwCreated).response.status = 500 ∧
    ¬(400 ≤ (serverVerifyPayment "testsecret" testReq gwCreated).response.status ∧
        (serverVerifyPayment "testsecret" testReq gwCreated).response.status < 500) := by
  have h : (serverVerifyPayment "testsecret" testReq gwCreated).response.status = 500 := by
    decide
  rw [h]
  omega

/-- Claim C4 as amended: a correctly signed request whose fetched status is
neither `authorized` nor `captured` issues zero capture calls and gets an
HTTP 500 response with `verified:true, captured:false` whose error message
names the observed status (the unused controller module would answer 400;
the live `server.js` handler throws into its catch, which answers 500). -/
theorem claim4_unexpected_state :
    ∀ (secret : String) (req : VerifyRequest) (gw : Gateway) (p : Payment),
      truthy req.razorpay_order_id = true → truthy req.razorpay_payment_id = true →
      truthy req.razorpay_signature = true → truthy req.amount = true →
      sigAccepted secret req = true →
      gw.fetchResult = .ok p →
      p.status ≠ "authorized" → p.status ≠ "captured" →
        (serverVerifyPayment secret req gw).captureCalls = 0 ∧
        (serverVerifyPayment secret req gw).response.status = 500 ∧
        (serverVerifyPayment secret req gw).response.verified = some true ∧
        (serverVerifyPayment secret req gw).response.captured = some false ∧
        (serverVerifyPayment secret req gw).response.error =
          some ("Payment in unexpected state: " ++ p.status) := by
  intro secret req gw p h1 h2 h3 h4 hsig hfetch hna hnc
  have hmsg := orDefault_of_ne ("Payment in unexpected state: " ++ p.status)
    "Payment verified but capture failed" (unexpected_state_msg_ne_empty p.status)
  simp [serverVerifyPayment, captureFailedResponse, h1, h2, h3, h4, hsig, hfetch,
    hna, hnc, hmsg]

/-- Witness for C4 (amended) at the created-state stub gateway. -/
theorem claim4_witness :
    (serverVerifyPayment "testsecret" testReq gwCreated).captureCalls = 0 ∧
    (serverVerifyPayment "testsecret" testReq gwCreated).response.status = 500 ∧
    (serverVerifyPayment "testsecret" testReq gwCreated).response.error =
      some "Payment in unexpected state: created" := by
  have h := claim4_unexpected_state "testsecret" testReq gwCreated
    { id := "pay_XYZ", status := "created", currency := "INR", amount := 500 }
    (by decide) (by decide) (by decide) (by decide) (by decide) rfl
    (by decide) (by decide)
  exact ⟨h.1, h.2.1, h.2.2.2.2⟩

/-- Claim C5 is the spec's intent but `server.js` does not implement it: the
handler computes the HMAC over `process.env.RAZORPAY_KEY_SECRET` untrimmed
(even though the same file trims both keys when initialising the SDK, and the
duplicate controller module trims the secret for its HMAC).  With the secret
`"testsecret "` (trailing space) the controller's digest equals the digest of
the trimmed secret, while the `server.js` digest differs from it. -/
theorem claim5_secret_trimming :
    controllerExpectedSign "testsecret " "order_ABC" "pay_XYZ" = testDigest ∧
    serverExpectedSign "testsecret" "order_ABC" "pay_XYZ" = testDigest ∧
    serverExpectedSign "testsecret " "order_ABC" "pay_XYZ" =
      "811cdc588bff989a854ad4a8ad6b446e722396254328c63dc9a90aaefb6844d6" ∧
    ("811cdc588bff989a854ad4a8ad6b446e722396254328c63dc9a90aaefb6844d6" : String) ≠
      testDigest := by
  refine ⟨by decide, by decide, by decide, by decide⟩

/-- Claim C6: if any of the four request fields is missing or empty the
handler answers 400 "Missing required parameters" and makes no gateway call
at all, neither fetch nor capture. -/
theorem claim6_missing_fields :
    ∀ (secret : String) (req : VerifyRequest) (gw : Gateway),
      (truthy req.razorpay_order_id = false ∨ truthy req.razorpay_payment_id = false ∨
       truthy req.razorpay_signature = false ∨ truthy req.amount = false) →
        (serverVerifyPayment secret req gw).response.status = 400 ∧
        (serverVerifyPayment secret req gw).response.error = some "Missing required parameters" ∧
        (serverVerifyPayment secret req gw).fetchCalls = 0 ∧
        (serverVerifyPayment secret req gw).captureCalls = 0 := by
  intro secret req gw h
  rcases h with h | h | h | h <;> simp [serverVerifyPayment, h]

/-- Witness for C6: the concrete request with the amount absent. -/
theorem claim6_witness :
    truthy JVal.jundefined = false ∧
    (serverVerifyPayment "testsecret"
      { razorpay_order_id := .jstr "order_ABC", razorpay_payment_id := .jstr "pay_XYZ",
        razorpay_signature := .jstr "sig", amount := .jundefined } gwAuthorized).fetchCalls = 0 := by
  have h := claim6_missing_fields "testsecret"
    { razorpay_order_id := .jstr "order_ABC", razorpay_payment_id := .jstr "pay_XYZ",
      razorpay_signature := .jstr "sig", amount := .jundefined } gwAuthorized
    (Or.inr (Or.inr (Or.inr (by decide))))
  exact ⟨by decide, h.2.2.1⟩

/-- Claim C7: the response distinguishes three mutually exclusive outcomes:
(a) a request failing the signature gate gets 400 with `verified:false`;
(b) a correctly signed request whose fetch or capture call fails gets
`verified:true, captured:false`; (c) a correctly signed request that is
captured or already captured gets 200 with `verified:true, captured:true`,
`payment_id`, `order_id` and the payment details. -/
theorem claim7_three_outcomes :
    (∀ (secret : String) (req : VerifyRequest) (gw : Gateway),
        truthy req.razorpay_order_id = true → truthy req.razorpay_payment_id = true →
        truthy req.razorpay_signature = true → truthy req.amount = true →
        sigAccepted secret req = false →
          (serverVerifyPayment secret req gw).response.status = 400 ∧
          (serverVerifyPayment secret req gw).response.verified = some false) ∧
    (∀ (secret : String) (req : VerifyRequest) (gw : Gateway) (e : String),
        truthy req.razorpay_order_id = true → truthy req.razorpay_payment_id = true →
        truthy req.razorpay_signature = true → truthy req.amount = true →
        sigAccepted secret req = true → gw.fetchResult = .error e →
          (serverVerifyPayment secret req gw).response.verified = some true ∧
          (serverVerifyPayment secret req gw).response.captured = some false) ∧
    (∀ (secret : String) (req : VerifyRequest) (gw : Gateway) (p : Payment) (e : String),
        truthy req.razorpay_order_id = true → truthy req.razorpay_payment_id = true →
        truthy req.razorpay_signature = true → truthy req.amount = true →
        sigAccepted secret req = true → gw.fetchResult = .ok p →
        p.status = "authorized" → gw.captureResult = .error e →
          (serverVerifyPayment secret req gw).response.verified = some true ∧
          (serverVerifyPayment secret req gw).response.captured = some false) ∧
    (∀ (secret : String) (req : VerifyRequest) (gw : Gateway) (p q : Payment),
        truthy req.razorpay_order_id = true → truthy req.razorpay_payment_id = true →
        truthy req.razorpay_signature = true → truthy req.amount = true →
        sigAccepted secret req = true → gw.fetchResult = .ok p →
        p.status = "authorized" → gw.captureResult = .ok q →
          (serverVerifyPayment secret req gw).response.status = 200 ∧
          (serverVerifyPayment secret req gw).response.verified = some true ∧
          (serverVerifyPayment secret req gw).response.captured = some true ∧
          (serverVerifyPayment secret req gw).response.payment_id =
            some (asStr req.razorpay_payment_id) ∧
          (serverVerifyPayment secret req gw).response.order_id =
            some (asStr req.razorpay_order_id) ∧
          (serverVerifyPayment secret req gw).response.payment_details = some q) ∧
    (∀ (secret : String) (req : VerifyRequest) (gw : Gateway) (p : Payment),
        truthy req.razorpay_order_id = true → truthy req.razorpay_payment_id = true →
        truthy req.razorpay_signature = true → truthy req.amount = true →
        sigAccepted secret req = true → gw.fetchResult = .ok p →
        p.status = "captured" →
          (serverVerifyPayment secret req gw).response.status = 200 ∧
          (serverVerifyPayment secret req gw).response.verified = some true ∧
          (serverVerifyPayment secret req gw).response.captured = some true ∧
          (serverVerifyPayment secret req gw).response.payment_id =
            some (asStr req.razorpay_payment_id) ∧
          (serverVerifyPayment secret req gw).response.order_id =
            some (asStr req.razorpay_order_id) ∧
          (serverVerifyPayment secret req gw).response.payment_details = some p) := by
  refine ⟨fun secret req gw h1 h2 h3 h4 hsig => ?_,
    fun secret req gw e h1 h2 h3 h4 hsig hfetch => ?_,
    fun secret req gw p e h1 h2 h3 h4 hsig hfetch hstatus hcap => ?_,
    fun secret req gw p q h1 h2 h3 h4 hsig hfetch hstatus hcap => ?_,
    fun secret req gw p h1 h2 h3 h4 hsig hfetch hstatus => ?_⟩
  · simp [serverVerifyPayment, h1, h2, h3, h4, hsig]
  · simp [serverVerifyPayment, captureFailedResponse, h1, h2, h3, h4, hsig, hfetch]
  · simp [serverVerifyPayment, captureFailedResponse, capturedResponse, h1, h2, h3, h4,
      hsig, hfetch, hstatus, hcap]
  · simp [serverVerifyPayment, capturedResponse, h1, h2, h3, h4, hsig, hfetch, hstatus, hcap]
  · simp [serverVerifyPayment, capturedResponse, h1, h2, h3, h4, hsig, hfetch, hstatus]

/-- Witness for C7: one concrete run per outcome, over the stub gateways. -/
theorem claim7_witness :
    (serverVerifyPayment "testsecret" badSigReq gwAuthorized).response.status = 400 ∧
    (serverVerifyPayment "testsecret" badSigReq gwAuthorized).response.verified = some false ∧
    (serverVerifyPayment "testsecret" testReq gwFetchFails).response.verified = some true ∧
    (serverVerifyPayment "testsecret" testReq gwFetchFails).response.captured = some false ∧
    (serverVerifyPayment "testsecret" testReq gwCaptureFails).response.captured = some false ∧
    (serverVerifyPayment "testsecret" testReq gwAuthorized).response.status = 200 ∧
    (serverVerifyPayment "testsecret" testReq gwAuthorized).response.captured = some true ∧
    (serverVerifyPayment "testsecret" testReq gwCaptured).response.status = 200 := by
  have hsigT : sigAccepted "testsecret" testReq = true := by decide
  have hsigF : sigAccepted "testsecret" badSigReq = false := by decide
  have ha := claim7_three_outcomes.1 "testsecret" badSigReq gwAuthorized
    (by decide) (by decide) (by decide) (by decide) hsigF
  have hb := claim7_three_outcomes.2.1 "testsecret" testReq gwFetchFails "Gateway unreachable"
    (by decide) (by decide) (by decide) (by decide) hsigT rfl
  have hc := claim7_three_outcomes.2.2.1 "testsecret" testReq gwCaptureFails
    { id := "pay_XYZ", status := "authorized", currency := "INR", amount := 500 }
    "Capture failed" (by decide) (by decide) (by decide) (by decide) hsigT rfl rfl rfl
  have hd := claim7_three_outcomes.2.2.2.1 "testsecret" testReq gwAuthorized
    { id := "pay_XYZ", status := "authorized", currency := "INR", amount := 500 }
    { id := "pay_XYZ", status := "captured", currency := "INR", amount := 500 }
    (by decide) (by decide) (by decide) (by decide) hsigT rfl rfl rfl
  have he := claim7_three_outcomes.2.2.2.2 "testsecret" testReq gwCaptured
    { id := "pay_XYZ", status := "captured", currency := "INR", amount := 500 }
    (by decide) (by decide) (by decide) (by decide) hsigT rfl rfl
  exact ⟨ha.1, ha.2, hb.1, hb.2, hc.2, hd.1, hd.2.2.1, he.1⟩

/-- Claim C8: GET /payments maps the outcome of racing the listing call
against the 10-second timer to distinct statuses: 504 with the upstream
timeout error when the timer wins, 401 for a credential failure
(statusCode 401), 500 for any other failure, and 200 with
`{success:true, data:{count, items}}` on success. -/
theorem claim8_payments_listing :
    serverGetPayments (.error timedOutError) =
      { status := 504, success := false, error := some "Request to Razorpay timed out" } ∧
    (∀ e : ListError, e.statusCode = some 401 →
        serverGetPayments (.error e) =
          { status := 401, success := false, error := some "Invalid Razorpay credentials" }) ∧
    (∀ e : ListError, e.statusCode ≠ some 401 → e.message ≠ "Request timed out" →
        (serverGetPayments (.error e)).status = 500 ∧
        (serverGetPayments (.error e)).success = false) ∧
    (∀ payments : PaymentsList,
        serverGetPayments (.ok (some payments)) =
          { status := 200, success := true, count := some payments.count,
            items := some (payments.items.getD []) }) := by
  refine ⟨by decide, fun e h => ?_, fun e h1 h2 => ?_, fun payments => rfl⟩
  · simp [serverGetPayments, classifyListError, h]
  · simp [serverGetPayments, classifyListError, h1, h2]

/-- Witness for C8 at concrete errors and a concrete listing. -/
theorem claim8_witness :
    serverGetPayments (.error { statusCode := some 401, message := "Unauthorized" }) =
      { status := 401, success := false, error := some "Invalid Razorpay credentials" } ∧
    (serverGetPayments (.error { statusCode := none, message := "socket hang up" })).status =
      500 ∧
    serverGetPayments (.ok (some { count := 2, items := none })) =
      { status := 200, success := true, count := some 2, items := some [] } :=
  ⟨claim8_payments_listing.2.1 { statusCode := some 401, message := "Unauthorized" } rfl,
   (claim8_payments_listing.2.2.1 { statusCode := none, message := "socket hang up" }
     (by decide) (by decide)).1,
   claim8_payments_listing.2.2.2 { count := 2, items := none }⟩

/-- A request field that passes the falsiness validation is not the number 0. -/
theorem truthy_ne_jnum_zero (a : JVal) (h : truthy a = true) :
    (JVal.jnum 0 == a) = false := by
  rw [beq_eq_false_iff_ne]
  intro hc
  rw [← hc] at h
  simp [truthy] at h

/-- Claim C9: because presence is checked by JavaScript falsiness, an amount
equal to 0 is rejected exactly like an absent amount (400, "Missing required
parameters"), an empty-string field is rejected the same way, and a
zero-amount capture can never be requested through this handler. -/
theorem claim9_falsy_fields :
    (∀ (secret : String) (o p s : JVal) (gw : Gateway),
        serverVerifyPayment secret
            { razorpay_order_id := o, razorpay_payment_id := p,
              razorpay_signature := s, amount := .jnum 0 } gw =
          serverVerifyPayment secret
            { razorpay_order_id := o, razorpay_payment_id := p,
              razorpay_signature := s, amount := .jundefined } gw ∧
        (serverVerifyPayment secret
            { razorpay_order_id := o, razorpay_payment_id := p,
              razorpay_signature := s, amount := .jnum 0 } gw).response.status = 400 ∧
        (serverVerifyPayment secret
            { razorpay_order_id := o, razorpay_payment_id := p,
              razorpay_signature := s, amount := .jnum 0 } gw).response.error =
          some "Missing required parameters") ∧
    (∀ (secret : String) (req : VerifyRequest) (gw : Gateway),
        (req.razorpay_order_id = .jstr "" ∨ req.razorpay_payment_id = .jstr "" ∨
         req.razorpay_signature = .jstr "" ∨ req.amount = .jstr "") →
          (serverVerifyPayment secret req gw).response.status = 400 ∧
          (serverVerifyPayment secret req gw).response.error =
            some "Missing required parameters") ∧
    (∀ (secret : String) (req : VerifyRequest) (gw : Gateway),
        ((serverVerifyPayment secret req gw).captureAmounts.contains (JVal.jnum 0)) =
          false) := by
  refine ⟨fun secret o p s gw => ?_, fun secret req gw h => ?_, fun secret req gw => ?_⟩
  · exact ⟨by simp [serverVerifyPayment, truthy], by simp [serverVerifyPayment, truthy],
      by simp [serverVerifyPayment, truthy]⟩
  · rcases h with h | h | h | h <;> simp [serverVerifyPayment, truthy, h]
  · unfold serverVerifyPayment
    split
    · rfl
    next hvalid =>
      have hta : truthy req.amount = true := by
        cases ht : truthy req.amount with
        | true => rfl
        | false => exact absurd (by simp [ht]) hvalid
      have hne := beq_eq_false_iff_ne.mp (truthy_ne_jnum_zero req.amount hta)
      split
      · cases gw.fetchResult with
        | error e => rfl
        | ok paymentDetails =>
          by_cases hauth : (paymentDetails.status == "authorized") = true
          · simp only [hauth, if_true]
            cases gw.captureResult with
            | ok payment => simpa [List.contains] using hne
            | error e => simpa [List.contains] using hne
          · by_cases hcapt : (paymentDetails.status == "captured") = true
            · simp [hauth, hcapt]
            · simp [hauth, hcapt]
      · rfl

/-- Witness for C9 at the concrete authorized run (the only path that records
a capture amount). -/
theorem claim9_witness :
    ((serverVerifyPayment "testsecret" testReq gwAuthorized).captureAmounts.contains
      (JVal.jnum 0)) = false ∧
    (serverVerifyPayment "testsecret"
        { razorpay_order_id := .jstr "", razorpay_payment_id := .jstr "pay_XYZ",
          razorpay_signature := .jstr "sig", amount := .jnum 500 }
        gwAuthorized).response.status = 400 :=
  ⟨claim9_falsy_fields.2.2 "testsecret" testReq gwAuthorized,
   (claim9_falsy_fields.2.1 "testsecret"
     { razorpay_order_id := .jstr "", razorpay_payment_id := .jstr "pay_XYZ",
       razorpay_signature := .jstr "sig", amount := .jnum 500 }
     gwAuthorized (Or.inl rfl)).1⟩

/-- Claim C10: POST /create-order multiplies the caller-supplied amount by
100 before passing it to the gateway, while POST /verify-payment passes the
caller-supplied amount to the capture call unchanged. -/
theorem claim10_amount_units :
    (∀ (amount : Int) (currency : Option String),
        (serverCreateOrderOptions amount currency).amount = amount * 100) ∧
    (∀ (secret : String) (req : VerifyRequest) (gw : Gateway) (p : Payment),
        truthy req.razorpay_order_id = true → truthy req.razorpay_payment_id = true →
        truthy req.razorpay_signature = true → truthy req.amount = true →
        sigAccepted secret req = true → gw.fetchResult = .ok p →
        p.status = "authorized" →
          (serverVerifyPayment secret req gw).captureAmounts = [req.amount]) := by
  refine ⟨fun amount currency => rfl,
    fun secret req gw p h1 h2 h3 h4 hsig hfetch hstatus => ?_⟩
  cases hcap : gw.captureResult <;>
    simp [serverVerifyPayment, h1, h2, h3, h4, hsig, hfetch, hstatus, hcap]

/-- Witness for C10: the concrete authorized run captures with the request's
amount 500, and a created order for amount 500 is sent as 50000 paise. -/
theorem claim10_witness :
    (serverCreateOrderOptions 500 none).amount = 50000 ∧
    (serverVerifyPayment "testsecret" testReq gwAuthorized).captureAmounts =
      [JVal.jnum 500] := by
  have h2 := claim10_amount_units.2 "testsecret" testReq gwAuthorized
    { id := "pay_XYZ", status := "authorized", currency := "INR", amount := 500 }
    (by decide) (by decide) (by decide) (by decide) (by decide) rfl rfl
  exact ⟨claim10_amount_units.1 500 none, h2⟩

end Razorpay
